import Mathlib

/-!
# Shallow embedding of the `ledsgo` fixed-point simplex noise implementation

This file embeds `noise.go` of the `ledsgo` repository: the permutation
table `perm`, the gradient helpers `grad1`/`grad2`/`grad3`, and the three
public evaluators `Noise1`/`Noise2`/`Noise3`.

Machine integers are modelled as `Int` together with explicit
two's-complement wrapping (`toInt32`, `toInt64`, `toInt16`) inserted exactly
where a Go operation is performed at that width and its result can leave the
representable range.  Go's arithmetic shift right `x >> k` on a signed value
is floor division by `2^k` (`shr`); Go's `x & (2^k - 1)` on a signed value
is the nonnegative remainder `x % 2^k` (`maskLow`); Go's truncating signed
division `/` is `Int.tdiv`.
-/

namespace Ledsgo

/-- Wrap an integer into the signed two's-complement range of width `w`. -/
def wrap (w : Nat) (x : Int) : Int :=
  (x + 2 ^ (w - 1)) % 2 ^ w - 2 ^ (w - 1)

/-- Conversion to `int32` (Go `int32(e)`, and wrapping of 32-bit ops). -/
def toInt32 (x : Int) : Int := wrap 32 x

/-- Conversion to `int64` (Go `int64` ops that may wrap). -/
def toInt64 (x : Int) : Int := wrap 64 x

/-- Conversion to `int16` (Go `int16(e)` on the final result). -/
def toInt16 (x : Int) : Int := wrap 16 x

/-- Go arithmetic shift right `x >> k` on a signed integer: floor division. -/
def shr (a : Int) (k : Nat) : Int := a / 2 ^ k

/-- Go `x & (2^k - 1)` on a signed integer (two's complement): `x mod 2^k`. -/
def maskLow (a : Int) (k : Nat) : Int := a % 2 ^ k

/-- The signed 32-bit range, the domain of the evaluators' inputs. -/
def isInt32 (x : Int) : Prop := -(2 ^ 31) ≤ x ∧ x < 2 ^ 31

instance (x : Int) : Decidable (isInt32 x) := by unfold isInt32; infer_instance

/-- Permutation table from `noise.go` (`var perm = [256]uint8{...}`). -/
def perm : List Nat :=
  [151, 160, 137, 91, 90, 15,
   131, 13, 201, 95, 96, 53, 194, 233, 7, 225, 140, 36, 103, 30, 69, 142, 8, 99, 37, 240, 21, 10, 23,
   190, 6, 148, 247, 120, 234, 75, 0, 26, 197, 62, 94, 252, 219, 203, 117, 35, 11, 32, 57, 177, 33,
   88, 237, 149, 56, 87, 174, 20, 125, 136, 171, 168, 68, 175, 74, 165, 71, 134, 139, 48, 27, 166,
   77, 146, 158, 231, 83, 111, 229, 122, 60, 211, 133, 230, 220, 105, 92, 41, 55, 46, 245, 40, 244,
   102, 143, 54, 65, 25, 63, 161, 1, 216, 80, 73, 209, 76, 132, 187, 208, 89, 18, 169, 200, 196,
   135, 130, 116, 188, 159, 86, 164, 100, 109, 198, 173, 186, 3, 64, 52, 217, 226, 250, 124, 123,
   5, 202, 38, 147, 118, 126, 255, 82, 85, 212, 207, 206, 59, 227, 47, 16, 58, 17, 182, 189, 28, 42,
   223, 183, 170, 213, 119, 248, 152, 2, 44, 154, 163, 70, 221, 153, 101, 155, 167, 43, 172, 9,
   129, 22, 39, 253, 19, 98, 108, 110, 79, 113, 224, 232, 178, 185, 112, 104, 218, 246, 97, 228,
   251, 34, 242, 193, 238, 210, 144, 12, 191, 179, 162, 241, 81, 51, 145, 235, 249, 14, 239, 107,
   49, 192, 214, 31, 181, 199, 106, 157, 184, 84, 204, 176, 115, 121, 50, 45, 127, 4, 150, 254,
   138, 236, 205, 93, 222, 114, 67, 29, 24, 72, 243, 141, 128, 195, 78, 66, 215, 61, 156, 180]

/-- The reference byte sequence documented in the specification (section 4.1),
transcribed from the spec's words, to be compared with `perm`. -/
def specPermSeq : List Nat :=
  [151, 160, 137, 91, 90, 15, 131, 13, 201, 95, 96, 53, 194, 233, 7, 225, 140, 36, 103, 30, 69,
   142, 8, 99, 37, 240, 21, 10, 23, 190, 6, 148, 247, 120, 234, 75, 0, 26, 197, 62, 94, 252, 219,
   203, 117, 35, 11, 32, 57, 177, 33, 88, 237, 149, 56, 87, 174, 20, 125, 136, 171, 168, 68, 175,
   74, 165, 71, 134, 139, 48, 27, 166, 77, 146, 158, 231, 83, 111, 229, 122, 60, 211, 133, 230,
   220, 105, 92, 41, 55, 46, 245, 40, 244, 102, 143, 54, 65, 25, 63, 161, 1, 216, 80, 73, 209, 76,
   132, 187, 208, 89, 18, 169, 200, 196, 135, 130, 116, 188, 159, 86, 164, 100, 109, 198, 173,
   186, 3, 64, 52, 217, 226, 250, 124, 123, 5, 202, 38, 147, 118, 126, 255, 82, 85, 212, 207, 206,
   59, 227, 47, 16, 58, 17, 182, 189, 28, 42, 223, 183, 170, 213, 119, 248, 152, 2, 44, 154, 163,
   70, 221, 153, 101, 155, 167, 43, 172, 9, 129, 22, 39, 253, 19, 98, 108, 110, 79, 113, 224, 232,
   178, 185, 112, 104, 218, 246, 97, 228, 251, 34, 242, 193, 238, 210, 144, 12, 191, 179, 162,
   241, 81, 51, 145, 235, 249, 14, 239, 107, 49, 192, 214, 31, 181, 199, 106, 157, 184, 84, 204,
   176, 115, 121, 50, 45, 127, 4, 150, 254, 138, 236, 205, 93, 222, 114, 67, 29, 24, 72, 243, 141,
   128, 195, 78, 66, 215, 61, 156, 180]

/-- Table lookup `perm[idx]` for an in-range index (the callers always mask
the index with `& 0xff` first, i.e. pass `maskLow _ 8`). -/
def permAt (i : Int) : Nat := perm.getD i.toNat 0

/-- Bounds-checked table lookup: `none` exactly when the index would be out
of the table's bounds.  Used to state that the masked lookups of the noise
evaluators can never fault. -/
def permAt? (i : Int) : Option Nat :=
  if 0 ≤ i ∧ i < 256 then some (permAt i) else none

/-- Checked signed division (Go `/`, truncating): `none` on a zero divisor. -/
def idiv? (a b : Int) : Option Int :=
  if b = 0 then none else some (Int.tdiv a b)

/-- `grad1` from `noise.go`: hash is a byte, `x` is a `.12` fixed-point
`int32`; the product `grad * x` is a 32-bit multiplication. -/
def grad1 (hash : Nat) (x : Int) : Int :=
  let h := hash &&& 15
  let grad : Int := 1 + ((h &&& 7 : Nat) : Int)
  let grad := if h &&& 8 ≠ 0 then -grad else grad
  toInt32 (grad * x)

/-- `grad2` from `noise.go` (`q` conditionals become `if` expressions). -/
def grad2 (hash : Nat) (x y : Int) : Int :=
  let h := hash &&& 7
  let u := if h < 4 then x else y
  let v := if h < 4 then y else x
  toInt32 ((if h &&& 1 ≠ 0 then toInt32 (-u) else u) +
           (if h &&& 2 ≠ 0 then toInt32 (-2 * v) else toInt32 (2 * v)))

/-- `grad3` from `noise.go`. -/
def grad3 (hash : Nat) (x y z : Int) : Int :=
  let h := hash &&& 15
  let u := if h < 8 then x else y
  let v := if h < 4 then y else if h = 12 ∨ h = 14 then x else z
  toInt32 ((if h &&& 1 ≠ 0 then toInt32 (-u) else u) +
           (if h &&& 2 ≠ 0 then toInt32 (-v) else v))

/-- The falloff base of `Noise1`: `0x8000 - (xo*xo)>>9` (`.15`).  For the
offsets `Noise1` produces (`xo ∈ [-0x1000, 0xfff]`) no 32-bit operation here
can overflow, so no wrap is inserted. -/
def noise1fall (xo : Int) : Int := 0x8000 - shr (xo * xo) 9

/-- One lattice-point contribution of `Noise1`: the falloff base raised to
the 4th power in `.15`, times `grad1`, shifted back to `.15`.  All values
stay far below 2^31 for the offsets `Noise1` produces, so no wrap is
inserted. -/
def noise1corner (hash : Nat) (xo : Int) : Int :=
  let t := noise1fall xo
  let t := t * t / 2 ^ 15
  let t := t * t / 2 ^ 15
  t * grad1 hash xo / 2 ^ 12

/-- The raw corner sum `n0 + n1` of `Noise1` (`.15`), before bias and
rescale. -/
def noise1sum (x : Int) : Int :=
  let i0 := shr x 12
  let i1 := i0 + 1
  let x0 := maskLow x 12
  let x1 := x0 - 0x1000
  noise1corner (permAt (maskLow i0 8)) x0 + noise1corner (permAt (maskLow i1 8)) x1

/-- `Noise1` from `noise.go`: corner sum, `+2503` bias, `<<14` (a 32-bit
shift, hence wrapped) and truncating division by `40225`, truncated to
`int16`. -/
def Noise1 (x : Int) : Int :=
  toInt16 (Int.tdiv (toInt32 ((noise1sum x + 2503) * 2 ^ 14)) 40225)

/-- `Noise1` with bounds-checked table lookups and checked division; `none`
would signal an out-of-bounds access or a division by zero. -/
def Noise1? (x : Int) : Option Int := do
  let i0 := shr x 12
  let i1 := i0 + 1
  let x0 := maskLow x 12
  let x1 := x0 - 0x1000
  let p0 ← permAt? (maskLow i0 8)
  let p1 ← permAt? (maskLow i1 8)
  let n := noise1corner p0 x0 + noise1corner p1 x1
  let q ← idiv? (toInt32 ((n + 2503) * 2 ^ 14)) 40225
  pure (toInt16 q)

/-- Skew constant of `Noise2`: `F2 = 0.5*(sqrt(3)-1)` in `.32`. -/
def F2 : Int := 1572067135

/-- Unskew constant of `Noise2`: `G2 = (3-sqrt(3))/6` in `.32`. -/
def G2 : Int := 907633384

/-- One corner's contribution in `Noise2`/`Noise3`: from the `.16` falloff
value `t` and the gradient dot product `g`, the code computes
`if t > 0 { t = (t*t)>>16; t = (t*t)>>16; n = (t>>1) * g }` else the
contribution stays `0`.  All multiplications are 32-bit, hence wrapped. -/
def cornerContrib (t g : Int) : Int :=
  if 0 < t then
    let t2 := toInt32 (t * t) / 2 ^ 16
    let t4 := toInt32 (t2 * t2) / 2 ^ 16
    toInt32 (t4 / 2 * g)
  else 0

/-- `Noise2` from `noise.go`.  `.32` intermediates are 64-bit and wrapped
with `toInt64` wherever the 64-bit product or sum can overflow; the
`int32(...)` casts of the source become `toInt32`. -/
def Noise2 (x y : Int) : Int :=
  let s := toInt32 (shr (toInt64 ((x + y) * F2)) 32)
  let i := shr (toInt32 (shr x 1 + shr s 1)) 11
  let j := shr (toInt32 (shr y 1 + shr s 1)) 11
  let t := toInt64 ((i + j) * G2)
  let X0 := toInt64 (toInt64 (i * 2 ^ 32) - t)
  let Y0 := toInt64 (toInt64 (j * 2 ^ 32) - t)
  let x0 := toInt64 (toInt64 (x * 2 ^ 20) - X0)
  let y0 := toInt64 (toInt64 (y * 2 ^ 20) - Y0)
  let i1 : Int := if x0 > y0 then 1 else 0
  let j1 : Int := if x0 > y0 then 0 else 1
  let x1 := toInt64 (x0 - i1 * 2 ^ 32 + G2)
  let y1 := toInt64 (y0 - j1 * 2 ^ 32 + G2)
  let x2 := toInt64 (x0 - 2 ^ 32 + 2 * G2)
  let y2 := toInt64 (y0 - 2 ^ 32 + 2 * G2)
  let t0 := toInt32 (shr (toInt64 (2 ^ 31 - toInt64 (shr x0 16 * shr x0 16)
      - toInt64 (shr y0 16 * shr y0 16))) 16)
  let n0 := cornerContrib t0 (grad2 (permAt (maskLow (i + (permAt (maskLow j 8) : Int)) 8))
      (toInt32 (shr x0 17)) (toInt32 (shr y0 17)))
  let t1 := toInt32 (shr (toInt64 (2 ^ 31 - toInt64 (shr x1 16 * shr x1 16)
      - toInt64 (shr y1 16 * shr y1 16))) 16)
  let n1 := cornerContrib t1 (grad2 (permAt (maskLow (i + i1 + (permAt (maskLow (j + j1) 8) : Int)) 8))
      (toInt32 (shr x1 17)) (toInt32 (shr y1 17)))
  let t2 := toInt32 (shr (toInt64 (2 ^ 31 - toInt64 (shr x2 16 * shr x2 16)
      - toInt64 (shr y2 16 * shr y2 16))) 16)
  let n2 := cornerContrib t2 (grad2 (permAt (maskLow (i + 1 + (permAt (maskLow (j + 1) 8) : Int)) 8))
      (toInt32 (shr x2 17)) (toInt32 (shr y2 17)))
  let n := toInt32 (n0 + n1 + n2)
  toInt16 (Int.tdiv (toInt32 (n * 2 ^ 6)) 46360)

/-- `Noise2` with bounds-checked table lookups and checked division. -/
def Noise2? (x y : Int) : Option Int := do
  let s := toInt32 (shr (toInt64 ((x + y) * F2)) 32)
  let i := shr (toInt32 (shr x 1 + shr s 1)) 11
  let j := shr (toInt32 (shr y 1 + shr s 1)) 11
  let t := toInt64 ((i + j) * G2)
  let X0 := toInt64 (toInt64 (i * 2 ^ 32) - t)
  let Y0 := toInt64 (toInt64 (j * 2 ^ 32) - t)
  let x0 := toInt64 (toInt64 (x * 2 ^ 20) - X0)
  let y0 := toInt64 (toInt64 (y * 2 ^ 20) - Y0)
  let i1 : Int := if x0 > y0 then 1 else 0
  let j1 : Int := if x0 > y0 then 0 else 1
  let x1 := toInt64 (x0 - i1 * 2 ^ 32 + G2)
  let y1 := toInt64 (y0 - j1 * 2 ^ 32 + G2)
  let x2 := toInt64 (x0 - 2 ^ 32 + 2 * G2)
  let y2 := toInt64 (y0 - 2 ^ 32 + 2 * G2)
  let t0 := toInt32 (shr (toInt64 (2 ^ 31 - toInt64 (shr x0 16 * shr x0 16)
      - toInt64 (shr y0 16 * shr y0 16))) 16)
  let pj0 ← permAt? (maskLow j 8)
  let pi0 ← permAt? (maskLow (i + (pj0 : Int)) 8)
  let n0 := cornerContrib t0 (grad2 pi0 (toInt32 (shr x0 17)) (toInt32 (shr y0 17)))
  let t1 := toInt32 (shr (toInt64 (2 ^ 31 - toInt64 (shr x1 16 * shr x1 16)
      - toInt64 (shr y1 16 * shr y1 16))) 16)
  let pj1 ← permAt? (maskLow (j + j1) 8)
  let pi1 ← permAt? (maskLow (i + i1 + (pj1 : Int)) 8)
  let n1 := cornerContrib t1 (grad2 pi1 (toInt32 (shr x1 17)) (toInt32 (shr y1 17)))
  let t2 := toInt32 (shr (toInt64 (2 ^ 31 - toInt64 (shr x2 16 * shr x2 16)
      - toInt64 (shr y2 16 * shr y2 16))) 16)
  let pj2 ← permAt? (maskLow (j + 1) 8)
  let pi2 ← permAt? (maskLow (i + 1 + (pj2 : Int)) 8)
  let n2 := cornerContrib t2 (grad2 pi2 (toInt32 (shr x2 17)) (toInt32 (shr y2 17)))
  let n := toInt32 (n0 + n1 + n2)
  let q ← idiv? (toInt32 (n * 2 ^ 6)) 46360
  pure (toInt16 q)

/-- Skew constant of `Noise3`: `F3 = 1/3` in `.32`. -/
def F3 : Int := 1431655764

/-- Unskew constant of `Noise3`: `G3 = 1/6` in `.32`. -/
def G3 : Int := 715827884

/-- Falloff radius constant of `Noise3`: `0.6` in `.32`. -/
def fix0_6 : Int := 2576980378

/-- The six-way comparison cascade of `Noise3` (source lines 216-262)
selecting the second and third simplex corner offsets
`(i1, j1, k1, i2, j2, k2)` from the unskewed offsets `x0, y0, z0`. -/
def simplexCorners3 (x0 y0 z0 : Int) : Int × Int × Int × Int × Int × Int :=
  if x0 ≥ y0 then
    if y0 ≥ z0 then (1, 0, 0, 1, 1, 0)        -- X Y Z order
    else if x0 ≥ z0 then (1, 0, 0, 1, 0, 1)   -- X Z Y order
    else (0, 0, 1, 1, 0, 1)                   -- Z X Y order
  else
    if y0 < z0 then (0, 0, 1, 0, 1, 1)        -- Z Y X order
    else if x0 < z0 then (0, 1, 0, 0, 1, 1)   -- Y Z X order
    else (0, 1, 0, 1, 1, 0)                   -- Y X Z order

/-- `Noise3` from `noise.go`, with the same wrapping conventions as
`Noise2`. -/
def Noise3 (x y z : Int) : Int :=
  let s := toInt32 (shr (toInt64 ((x + y + z) * F3)) 32)
  let i := shr (toInt32 (shr x 1 + shr s 1)) 11
  let j := shr (toInt32 (shr y 1 + shr s 1)) 11
  let k := shr (toInt32 (shr z 1 + shr s 1)) 11
  let t := toInt64 ((i + j + k) * G3)
  let X0 := toInt64 (toInt64 (i * 2 ^ 32) - t)
  let Y0 := toInt64 (toInt64 (j * 2 ^ 32) - t)
  let Z0 := toInt64 (toInt64 (k * 2 ^ 32) - t)
  let x0 := toInt64 (toInt64 (x * 2 ^ 20) - X0)
  let y0 := toInt64 (toInt64 (y * 2 ^ 20) - Y0)
  let z0 := toInt64 (toInt64 (z * 2 ^ 20) - Z0)
  match simplexCorners3 x0 y0 z0 with
  | (i1, j1, k1, i2, j2, k2) =>
    let x1 := toInt64 (x0 - i1 * 2 ^ 32 + G3)
    let y1 := toInt64 (y0 - j1 * 2 ^ 32 + G3)
    let z1 := toInt64 (z0 - k1 * 2 ^ 32 + G3)
    let x2 := toInt64 (x0 - i2 * 2 ^ 32 + 2 * G3)
    let y2 := toInt64 (y0 - j2 * 2 ^ 32 + 2 * G3)
    let z2 := toInt64 (z0 - k2 * 2 ^ 32 + 2 * G3)
    let x3 := toInt64 (x0 - 2 ^ 32 + 3 * G3)
    let y3 := toInt64 (y0 - 2 ^ 32 + 3 * G3)
    let z3 := toInt64 (z0 - 2 ^ 32 + 3 * G3)
    let t0 := toInt32 (shr (toInt64 (fix0_6 - toInt64 (shr x0 16 * shr x0 16)
        - toInt64 (shr y0 16 * shr y0 16) - toInt64 (shr z0 16 * shr z0 16))) 16)
    let n0 := cornerContrib t0 (grad3
        (permAt (maskLow (i + (permAt (maskLow (j + (permAt (maskLow k 8) : Int)) 8) : Int)) 8))
        (toInt32 (shr x0 17)) (toInt32 (shr y0 17)) (toInt32 (shr z0 17)))
    let t1 := toInt32 (shr (toInt64 (fix0_6 - toInt64 (shr x1 16 * shr x1 16)
        - toInt64 (shr y1 16 * shr y1 16) - toInt64 (shr z1 16 * shr z1 16))) 16)
    let n1 := cornerContrib t1 (grad3
        (permAt (maskLow (i + i1 + (permAt (maskLow (j + j1 + (permAt (maskLow (k + k1) 8) : Int)) 8) : Int)) 8))
        (toInt32 (shr x1 17)) (toInt32 (shr y1 17)) (toInt32 (shr z1 17)))
    let t2 := toInt32 (shr (toInt64 (fix0_6 - toInt64 (shr x2 16 * shr x2 16)
        - toInt64 (shr y2 16 * shr y2 16) - toInt64 (shr z2 16 * shr z2 16))) 16)
    let n2 := cornerContrib t2 (grad3
        (permAt (maskLow (i + i2 + (permAt (maskLow (j + j2 + (permAt (maskLow (k + k2) 8) : Int)) 8) : Int)) 8))
        (toInt32 (shr x2 17)) (toInt32 (shr y2 17)) (toInt32 (shr z2 17)))
    let t3 := toInt32 (shr (toInt64 (fix0_6 - toInt64 (shr x3 16 * shr x3 16)
        - toInt64 (shr y3 16 * shr y3 16) - toInt64 (shr z3 16 * shr z3 16))) 16)
    let n3 := cornerContrib t3 (grad3
        (permAt (maskLow (i + 1 + (permAt (maskLow (j + 1 + (permAt (maskLow (k + 1) 8) : Int)) 8) : Int)) 8))
        (toInt32 (shr x3 17)) (toInt32 (shr y3 17)) (toInt32 (shr z3 17)))
    let n := toInt32 (n0 + n1 + n2 + n3)
    toInt16 (Int.tdiv (toInt32 (n * 2 ^ 6)) 64120)

/-- `Noise3` with bounds-checked table lookups and checked division. -/
def Noise3? (x y z : Int) : Option Int := do
  let s := toInt32 (shr (toInt64 ((x + y + z) * F3)) 32)
  let i := shr (toInt32 (shr x 1 + shr s 1)) 11
  let j := shr (toInt32 (shr y 1 + shr s 1)) 11
  let k := shr (toInt32 (shr z 1 + shr s 1)) 11
  let t := toInt64 ((i + j + k) * G3)
  let X0 := toInt64 (toInt64 (i * 2 ^ 32) - t)
  let Y0 := toInt64 (toInt64 (j * 2 ^ 32) - t)
  let Z0 := toInt64 (toInt64 (k * 2 ^ 32) - t)
  let x0 := toInt64 (toInt64 (x * 2 ^ 20) - X0)
  let y0 := toInt64 (toInt64 (y * 2 ^ 20) - Y0)
  let z0 := toInt64 (toInt64 (z * 2 ^ 20) - Z0)
  match simplexCorners3 x0 y0 z0 with
  | (i1, j1, k1, i2, j2, k2) =>
    let x1 := toInt64 (x0 - i1 * 2 ^ 32 + G3)
    let y1 := toInt64 (y0 - j1 * 2 ^ 32 + G3)
    let z1 := toInt64 (z0 - k1 * 2 ^ 32 + G3)
    let x2 := toInt64 (x0 - i2 * 2 ^ 32 + 2 * G3)
    let y2 := toInt64 (y0 - j2 * 2 ^ 32 + 2 * G3)
    let z2 := toInt64 (z0 - k2 * 2 ^ 32 + 2 * G3)
    let x3 := toInt64 (x0 - 2 ^ 32 + 3 * G3)
    let y3 := toInt64 (y0 - 2 ^ 32 + 3 * G3)
    let z3 := toInt64 (z0 - 2 ^ 32 + 3 * G3)
    let t0 := toInt32 (shr (toInt64 (fix0_6 - toInt64 (shr x0 16 * shr x0 16)
        - toInt64 (shr y0 16 * shr y0 16) - toInt64 (shr z0 16 * shr z0 16))) 16)
    let pk0 ← permAt? (maskLow k 8)
    let pj0 ← permAt? (maskLow (j + (pk0 : Int)) 8)
    let pi0 ← permAt? (maskLow (i + (pj0 : Int)) 8)
    let n0 := cornerContrib t0 (grad3 pi0
        (toInt32 (shr x0 17)) (toInt32 (shr y0 17)) (toInt32 (shr z0 17)))
    let t1 := toInt32 (shr (toInt64 (fix0_6 - toInt64 (shr x1 16 * shr x1 16)
        - toInt64 (shr y1 16 * shr y1 16) - toInt64 (shr z1 16 * shr z1 16))) 16)
    let pk1 ← permAt? (maskLow (k + k1) 8)
    let pj1 ← permAt? (maskLow (j + j1 + (pk1 : Int)) 8)
    let pi1 ← permAt? (maskLow (i + i1 + (pj1 : Int)) 8)
    let n1 := cornerContrib t1 (grad3 pi1
        (toInt32 (shr x1 17)) (toInt32 (shr y1 17)) (toInt32 (shr z1 17)))
    let t2 := toInt32 (shr (toInt64 (fix0_6 - toInt64 (shr x2 16 * shr x2 16)
        - toInt64 (shr y2 16 * shr y2 16) - toInt64 (shr z2 16 * shr z2 16))) 16)
    let pk2 ← permAt? (maskLow (k + k2) 8)
    let pj2 ← permAt? (maskLow (j + j2 + (pk2 : Int)) 8)
    let pi2 ← permAt? (maskLow (i + i2 + (pj2 : Int)) 8)
    let n2 := cornerContrib t2 (grad3 pi2
        (toInt32 (shr x2 17)) (toInt32 (shr y2 17)) (toInt32 (shr z2 17)))
    let t3 := toInt32 (shr (toInt64 (fix0_6 - toInt64 (shr x3 16 * shr x3 16)
        - toInt64 (shr y3 16 * shr y3 16) - toInt64 (shr z3 16 * shr z3 16))) 16)
    let pk3 ← permAt? (maskLow (k + 1) 8)
    let pj3 ← permAt? (maskLow (j + 1 + (pk3 : Int)) 8)
    let pi3 ← permAt? (maskLow (i + 1 + (pj3 : Int)) 8)
    let n3 := cornerContrib t3 (grad3 pi3
        (toInt32 (shr x3 17)) (toInt32 (shr y3 17)) (toInt32 (shr z3 17)))
    let n := toInt32 (n0 + n1 + n2 + n3)
    let q ← idiv? (toInt32 (n * 2 ^ 6)) 64120
    pure (toInt16 q)

/-! ## Helper lemmas -/

theorem toInt32_def (a : Int) :
    toInt32 a = (a + 2147483648) % 4294967296 - 2147483648 := by
  unfold toInt32 wrap; norm_num

theorem toInt32_congr {a b : Int} (h : a % 4294967296 = b % 4294967296) :
    toInt32 a = toInt32 b := by
  rw [toInt32_def, toInt32_def]; omega

theorem toInt32_emod (a : Int) : toInt32 a % 4294967296 = a % 4294967296 := by
  rw [toInt32_def]; omega

theorem toInt32_neg_toInt32 (a : Int) : toInt32 (-toInt32 a) = toInt32 (-a) := by
  apply toInt32_congr
  have := toInt32_emod a
  omega

theorem toInt32_mul_toInt32 (a b : Int) : toInt32 (a * toInt32 b) = toInt32 (a * b) := by
  apply toInt32_congr
  conv_lhs => rw [Int.mul_emod, toInt32_emod, ← Int.mul_emod]

theorem maskLow12 (a : Int) : maskLow a 12 = a % 4096 := by
  unfold maskLow; norm_num

theorem maskLow8 (a : Int) : maskLow a 8 = a % 256 := by
  unfold maskLow; norm_num

theorem shr12 (a : Int) : shr a 12 = a / 4096 := by
  unfold shr; norm_num

theorem maskLow8_nonneg (a : Int) : 0 ≤ maskLow a 8 := by
  rw [maskLow8]; omega

theorem maskLow8_lt (a : Int) : maskLow a 8 < 256 := by
  rw [maskLow8]; omega

theorem permAt?_mask (a : Int) : permAt? (maskLow a 8) = some (permAt (maskLow a 8)) := by
  unfold permAt?
  rw [if_pos ⟨maskLow8_nonneg a, maskLow8_lt a⟩]

theorem idiv?_40225 (a : Int) : idiv? a 40225 = some (Int.tdiv a 40225) := by
  norm_num [idiv?]

theorem idiv?_46360 (a : Int) : idiv? a 46360 = some (Int.tdiv a 46360) := by
  norm_num [idiv?]

theorem idiv?_64120 (a : Int) : idiv? a 64120 = some (Int.tdiv a 64120) := by
  norm_num [idiv?]

/-! ## Claims -/

set_option maxRecDepth 8000 in
/-- C1: the permutation table is exactly the 256-entry byte sequence
documented in the spec, and it is a permutation of `[0, 255]`: every value
`0..255` appears exactly once, in the documented order. -/
theorem perm_table_integrity :
    perm = specPermSeq ∧ perm.length = 256 ∧ ∀ v : Nat, v < 256 → perm.count v = 1 :=
  ⟨by decide, by decide, by decide⟩

/-- Witness for C1's bounded quantifier: value `151` appears exactly once. -/
theorem perm_table_integrity_witness : perm.count 151 = 1 :=
  perm_table_integrity.2.2 151 (by decide)

/-- C2: the second and third simplex-corner offsets of `Noise3` are chosen
by the classic six-way comparison cascade on the unskewed offsets
`x0, y0, z0`, with the reference tie-break behaviour. -/
theorem simplexCorners3_cascade (x0 y0 z0 : Int) :
    (x0 ≥ y0 → y0 ≥ z0 → simplexCorners3 x0 y0 z0 = (1, 0, 0, 1, 1, 0)) ∧
    (x0 ≥ y0 → y0 < z0 → x0 ≥ z0 → simplexCorners3 x0 y0 z0 = (1, 0, 0, 1, 0, 1)) ∧
    (x0 ≥ y0 → y0 < z0 → x0 < z0 → simplexCorners3 x0 y0 z0 = (0, 0, 1, 1, 0, 1)) ∧
    (x0 < y0 → y0 < z0 → simplexCorners3 x0 y0 z0 = (0, 0, 1, 0, 1, 1)) ∧
    (x0 < y0 → y0 ≥ z0 → x0 < z0 → simplexCorners3 x0 y0 z0 = (0, 1, 0, 0, 1, 1)) ∧
    (x0 < y0 → y0 ≥ z0 → x0 ≥ z0 → simplexCorners3 x0 y0 z0 = (0, 1, 0, 1, 1, 0)) := by
  unfold simplexCorners3
  refine ⟨?_, ?_, ?_, ?_, ?_, ?_⟩ <;> intros <;> split_ifs <;> first | rfl | omega

/-- Witness for C2: a point with `x0 ≥ y0 ≥ z0` gets the X Y Z order. -/
theorem simplexCorners3_cascade_witness : simplexCorners3 3 2 1 = (1, 0, 0, 1, 1, 0) :=
  (simplexCorners3_cascade 3 2 1).1 (by decide) (by decide)

/-- C3: a simplex corner of `Noise2`/`Noise3` whose `.16` falloff value `t`
is `≤ 0` contributes exactly zero, and its gradient/permutation lookup value
cannot affect the result. -/
theorem cornerContrib_eq_zero (t g g' : Int) (ht : t ≤ 0) :
    cornerContrib t g = 0 ∧ cornerContrib t g = cornerContrib t g' := by
  unfold cornerContrib
  rw [if_neg (by omega)]
  exact ⟨rfl, by rw [if_neg (by omega)]⟩

/-- Witness for C3 at `t = -1`. -/
theorem cornerContrib_eq_zero_witness :
    cornerContrib (-1) 7 = 0 ∧ cornerContrib (-1) 7 = cornerContrib (-1) 123 :=
  cornerContrib_eq_zero (-1) 7 123 (by decide)

/-- C5: `Noise1`'s final result is the corner sum plus the fixed bias
`2503`, multiplied by `16384` (a 32-bit left shift by 14), divided by
`40225` with truncating division, and truncated to `int16`. -/
theorem noise1_final_scale (x : Int) :
    Noise1 x = toInt16 (Int.tdiv (toInt32 ((noise1sum x + 2503) * 16384)) 40225) := rfl

/-- C9: at the origin each evaluator returns a value within `2048`
(1/16 of full scale) of zero in `Q0.15`. -/
theorem noise_zero_near_zero :
    (Noise1 0).natAbs ≤ 2048 ∧ (Noise2 0 0).natAbs ≤ 2048 ∧
      (Noise3 0 0 0).natAbs ≤ 2048 :=
  ⟨by decide, by decide, by decide⟩

/-- C6: in `Noise1`, for every `int32` input both falloff bases are
non-negative before being raised to the 4th power: with `x0 = x & 0xfff`
and `x1 = x0 - 0x1000`, both `0x8000 - (x0*x0)>>9 ≥ 0` and
`0x8000 - (x1*x1)>>9 ≥ 0` hold exactly, so no clamping branch is needed. -/
theorem noise1fall_nonneg (x : Int) (hx : isInt32 x) :
    0 ≤ noise1fall (maskLow x 12) ∧ 0 ≤ noise1fall (maskLow x 12 - 0x1000) := by
  have h0 : 0 ≤ maskLow x 12 := by rw [maskLow12]; omega
  have h1 : maskLow x 12 < 4096 := by rw [maskLow12]; omega
  unfold noise1fall shr
  norm_num
  constructor
  · have hsq : maskLow x 12 * maskLow x 12 ≤ 4095 * 4095 := by nlinarith
    have hd := Int.ediv_le_ediv (by norm_num : (0:Int) < 512) hsq
    have : (4095 * 4095 : Int) / 512 = 32752 := by decide
    omega
  · have hnn : 0 ≤ (maskLow x 12 - 4096) * (maskLow x 12 - 4096) := mul_self_nonneg _
    have hsq : (maskLow x 12 - 4096) * (maskLow x 12 - 4096) ≤ 4096 * 4096 := by nlinarith
    have hd := Int.ediv_le_ediv (by norm_num : (0:Int) < 512) hsq
    have : (4096 * 4096 : Int) / 512 = 32768 := by decide
    omega

/-- Witness for C6 at `x = 5`. -/
theorem noise1fall_nonneg_witness :
    0 ≤ noise1fall (maskLow 5 12) ∧ 0 ≤ noise1fall (maskLow 5 12 - 0x1000) :=
  noise1fall_nonneg 5 (by decide)

set_option maxRecDepth 4000 in
/-- C7: `grad1 hash x` is `s * m * x` under 32-bit wraparound
multiplication, where the magnitude `m = 1 + (hash & 7)` lies in `1..8` and
the sign `s` is `-1` iff bit 3 of the hash byte is set. -/
theorem grad1_sign_magnitude (hash : Nat) (x : Int) (hh : hash < 256) (hx : isInt32 x) :
    grad1 hash x =
      toInt32 ((if hash.testBit 3 then -1 else 1) * (1 + ((hash % 8 : Nat) : Int)) * x) ∧
    1 ≤ 1 + ((hash % 8 : Nat) : Int) ∧ 1 + ((hash % 8 : Nat) : Int) ≤ 8 := by
  have hmag : (hash &&& 15) &&& 7 = hash % 8 := by
    have key : ∀ h : Nat, h < 256 → (h &&& 15) &&& 7 = h % 8 := by decide
    exact key hash hh
  have hsign : ((hash &&& 15) &&& 8 ≠ 0) ↔ hash.testBit 3 = true := by
    have key : ∀ h : Nat, h < 256 → (((h &&& 15) &&& 8 ≠ 0) ↔ h.testBit 3 = true) := by decide
    exact key hash hh
  have hm8 : hash % 8 < 8 := Nat.mod_lt hash (by norm_num)
  refine ⟨?_, by omega, by push_cast; omega⟩
  simp only [grad1, hmag]
  by_cases hb : hash.testBit 3 = true
  · rw [if_pos (hsign.mpr hb), if_pos hb]
    congr 1; ring
  · rw [if_neg (fun hc => hb (hsign.mp hc)), if_neg (by simp [hb])]
    congr 1; ring

/-- Witness for C7 at `hash = 13`, `x = 100` (bit 3 set, magnitude 6). -/
theorem grad1_sign_magnitude_witness :
    grad1 13 100 = toInt32 ((if Nat.testBit 13 3 then -1 else 1) * (1 + ((13 % 8 : Nat) : Int)) * 100) ∧
    1 ≤ 1 + ((13 % 8 : Nat) : Int) ∧ 1 + ((13 % 8 : Nat) : Int) ≤ 8 :=
  grad1_sign_magnitude 13 100 (by decide) (by decide)

/-- C8: `grad1 hash x = -grad1 hash (-x)` where negation and multiplication
wrap in two's-complement 32-bit arithmetic. -/
theorem grad1_odd (hash : Nat) (x : Int) (hh : hash < 256) (hx : isInt32 x) :
    grad1 hash (toInt32 (-x)) = toInt32 (-grad1 hash x) := by
  simp only [grad1]
  rw [toInt32_mul_toInt32, toInt32_neg_toInt32, mul_neg]

/-- Witness for C8 at `hash = 9`, `x = 77`. -/
theorem grad1_odd_witness : grad1 9 (toInt32 (-77)) = toInt32 (-grad1 9 77) :=
  grad1_odd 9 77 (by decide) (by decide)

/-- C4: for every `int32` input (in fact for every integer input), each
evaluator returns a value unconditionally: the bounds-checked variants,
which return `none` on any out-of-bounds table access or division by zero,
always succeed and agree with the evaluators, because every permutation
index is masked into `[0, 255]` and every divisor is a nonzero constant. -/
theorem noise_total (x y z : Int) (hx : isInt32 x) (hy : isInt32 y) (hz : isInt32 z) :
    Noise1? x = some (Noise1 x) ∧ Noise2? x y = some (Noise2 x y) ∧
      Noise3? x y z = some (Noise3 x y z) := by
  refine ⟨?_, ?_, ?_⟩
  · simp [Noise1?, Noise1, noise1sum, permAt?_mask, idiv?_40225]
  · simp [Noise2?, Noise2, permAt?_mask, idiv?_46360]
  · simp only [Noise3?, Noise3]
    generalize simplexCorners3 _ _ _ = c
    obtain ⟨i1, j1, k1, i2, j2, k2⟩ := c
    simp [permAt?_mask, idiv?_64120]

/-- Witness for C4 at the origin. -/
theorem noise_total_witness :
    Noise1? 0 = some (Noise1 0) ∧ Noise2? 0 0 = some (Noise2 0 0) ∧
      Noise3? 0 0 0 = some (Noise3 0 0 0) :=
  noise_total 0 0 0 (by decide) (by decide) (by decide)

/-- C10: `Noise1` is periodic with period `2^20` (256 lattice units) in its
`Q19.12` input, the addition wrapping in `int32` arithmetic: the lattice
index only enters through `perm[i & 0xff]` and the fractional offsets
`x & 0xfff` are unchanged. -/
theorem noise1_periodic (x : Int) (hx : isInt32 x) :
    Noise1 (toInt32 (x + 1048576)) = Noise1 x := by
  have h0 : maskLow (toInt32 (x + 1048576)) 12 = maskLow x 12 := by
    rw [toInt32_def, maskLow12, maskLow12]; omega
  have h1 : maskLow (shr (toInt32 (x + 1048576)) 12) 8 = maskLow (shr x 12) 8 := by
    rw [toInt32_def, maskLow8, maskLow8, shr12, shr12]; omega
  have h2 : maskLow (shr (toInt32 (x + 1048576)) 12 + 1) 8 = maskLow (shr x 12 + 1) 8 := by
    rw [toInt32_def, maskLow8, maskLow8, shr12, shr12]; omega
  simp only [Noise1, noise1sum]
  rw [h0, h1, h2]

/-- Witness for C10 at `x = 0`. -/
theorem noise1_periodic_witness : Noise1 (toInt32 (0 + 1048576)) = Noise1 0 :=
  noise1_periodic 0 (by decide)

end Ledsgo
